import Mathlib

/-!
Verification of the procedural pipeline of the `openmm_workshop` tutorial
repository (`src/section_1/protein_ligand_complex.ipynb`).

The notebook orchestrates two pipelines ("Method 1" and "Method 2") over
external scientific libraries (OpenMM, openff-toolkit, openmmforcefields,
BioSimSpace).  The notebook cells themselves are embedded from the source;
the behaviour of the external operations the notebook invokes (the OpenMM
Simulation driver, Modeller, ForceField registry, the BioSimSpace node
script downloaded by the notebook) is not present under `src/` and is
modelled from the specification's contracts, as marked in the doc comments.
-/

namespace OpenMMWorkshop

/-- Phases of the Simulation Driver state machine
(`Unpositioned → Positioned → Minimized → VelocityAssigned → Running → Completed`). -/
inductive SimPhase where
  | unpositioned
  | positioned
  | minimized
  | velocityAssigned
  | running
  | completed
deriving DecidableEq, Repr

/-- Operations the notebook cells invoke on an OpenMM `app.Simulation`. -/
inductive SimOp where
  | setPositions
  | minimizeEnergy
  | setVelocitiesToTemperature
  | step (n : Nat)
deriving DecidableEq, Repr

/-- Modelled from the spec: the Simulation Driver (OpenMM's `app.Simulation`
and its context, not part of this repository) moves through the strictly
ordered phases `Unpositioned → Positioned → Minimized → VelocityAssigned →
Running → Completed`; an operation invoked out of this order — in particular
minimizing energy or stepping the trajectory before the positions were set —
is a usage error, returned here as `none`.  On success the result is the pair
of the list of phases visited during the operation and the resting phase
afterwards (`step n` visits `running` and then blocks until `completed`). -/
def simApply : SimPhase → SimOp → Option (List SimPhase × SimPhase)
  | .unpositioned, .setPositions => some ([.positioned], .positioned)
  | .positioned, .minimizeEnergy => some ([.minimized], .minimized)
  | .minimized, .setVelocitiesToTemperature =>
      some ([.velocityAssigned], .velocityAssigned)
  | .velocityAssigned, .step _ => some ([.running, .completed], .completed)
  | _, _ => none

/-- Run a list of driver operations from a phase, stopping at the first
usage error. -/
def runOps : SimPhase → List SimOp → Option SimPhase
  | p, [] => some p
  | p, op :: ops =>
      match simApply p op with
      | none => none
      | some (_, q) => runOps q ops

/-- The list of phases visited while running a list of driver operations,
`none` as soon as one operation is a usage error. -/
def runTrace : SimPhase → List SimOp → Option (List SimPhase)
  | _, [] => some []
  | p, op :: ops =>
      match simApply p op with
      | none => none
      | some (vis, q) =>
          match runTrace q ops with
          | none => none
          | some rest => some (vis ++ rest)

/-- The driver operations of the Method 1 simulate cell exactly as written in
the notebook: the `FIXME` placeholder where `simulation.context.setPositions`
belongs is intentionally unfilled, so the cell proceeds directly to
`simulation.minimizeEnergy(maxIterations=100)`, then
`simulation.context.setVelocitiesToTemperature(300*unit.kelvin)`, then
`simulation.step(1000)`. -/
def method1Ops : List SimOp :=
  [.minimizeEnergy, .setVelocitiesToTemperature, .step 1000]

/-- The driver operations of the Method 2 cell as written in the notebook:
`simulation.context.setPositions(inpcrd.positions)`, then
`simulation.minimizeEnergy(maxIterations=100)`, then
`simulation.context.setVelocitiesToTemperature(300*unit.kelvin)`, then
`simulation.step(1000)`. -/
def method2Ops : List SimOp :=
  [.setPositions, .minimizeEnergy, .setVelocitiesToTemperature, .step 1000]

/-- Modelled from the spec: a `StateDataReporter` attached with reporting
interval `k` emits one diagnostic line at every integration step whose index
(counting from 1) is divisible by `k`; `reportCount n k` is the number of
lines emitted over a run of `n` steps. -/
def reportCount (n k : Nat) : Nat :=
  (List.range n).countP (fun i => (i + 1) % k == 0)

/-- The scalar fields a diagnostic line can report. -/
inductive DiagField where
  | stepIndex
  | potentialEnergy
  | temperature
  | speed
deriving DecidableEq, Repr

/-- The fields of Method 1's reporter as written in the notebook:
`app.StateDataReporter(stdout, 100, step=True, potentialEnergy=True,
temperature=True, speed=True)`. -/
def method1Fields : List DiagField :=
  [.stepIndex, .potentialEnergy, .temperature, .speed]

/-- The fields of Method 2's reporter as written in the notebook:
`app.StateDataReporter(stdout, 100, step=True, potentialEnergy=True,
temperature=True)`. -/
def method2Fields : List DiagField :=
  [.stepIndex, .potentialEnergy, .temperature]

/-- The reporting interval both notebook cells pass to `StateDataReporter`. -/
def notebookReportInterval : Nat := 100

/-- The step count both notebook cells pass to `simulation.step`. -/
def notebookStepCount : Nat := 1000

/-- The Topology Combiner's working object (OpenMM `app.Modeller` as the
notebook builds it from the protein topology and positions): its atom list,
in order, over an abstract atom type `α`. -/
structure Modeller (α : Type) where
  atoms : List α

/-- Modelled from the spec: OpenMM's `Modeller.add` (third-party, not part of
this repository; the notebook calls `modeller.add(ligand_omm_topology,
ligand_positions)`) merges an additional molecular fragment into the model by
appending its atoms after the existing atoms, never re-ordering, dropping or
duplicating existing atoms. -/
def Modeller.add {α : Type} (m : Modeller α) (fragment : List α) : Modeller α :=
  ⟨m.atoms ++ fragment⟩

/-- Modelled from the spec: `Modeller.addSolvent` (the notebook calls
`modeller.addSolvent(ff, padding=1.0*unit.nanometer,
ionicStrength=0.15*unit.molar)`) adds explicit solvent molecules and ions
around the combined solute, appending them after the existing atoms. -/
def Modeller.addSolvent {α : Type} (m : Modeller α) (solventIons : List α) :
    Modeller α :=
  ⟨m.atoms ++ solventIons⟩

/-- Modelled from the spec: when periodic solvation is requested with a
padding distance `p`, the box extends the combined solute by at least `p` on
every side, so each box dimension is the solute's extent in that direction
(a nonnegative length) plus `2 * p`.  Lengths are in nanometers, as rational
numbers. -/
def boxDimensions (extents : List ℚ) (padding : ℚ) : List ℚ :=
  extents.map (fun e => e + 2 * padding)

/-- The padding distance the notebook passes to `addSolvent`
(`padding=1.0*unit.nanometer`), in nanometers. -/
def notebookPadding : ℚ := 1

/-- An openff-toolkit molecule as the Method 1 cells use it: the list of its
3-D conformers, each conformer one coordinate set of abstract type `π`. -/
structure OffMolecule (π : Type) where
  conformers : List π

/-- The coordinate set the Method 1 combine cell hands to the combiner:
`ligand_positions = offquantity_to_openmm(ligand.conformers[0])` — the first
conformer; indexing yields nothing when the molecule carries no conformer. -/
def ligandPositions {π : Type} (ligand : OffMolecule π) : Option π :=
  ligand.conformers[0]?

/-- The Method 1 combine cell in order: fetch the ligand's first conformer as
its positions, then merge the ligand topology into the Modeller with
`modeller.add`; when the conformer indexing fails, the cell fails before any
topology is merged, so no merged Modeller is produced. -/
def method1Combine {α π : Type} (modeller : Modeller α) (ligandAtoms : List α)
    (ligand : OffMolecule π) : Option (Modeller α × π) :=
  match ligandPositions ligand with
  | none => none
  | some pos => some (modeller.add ligandAtoms, pos)

/-- The force-field registry as Method 1 builds it
(`app.ForceField('amber/protein.ff14SB.xml', 'amber/tip3p_standard.xml')`):
the residue types matched by the loaded standard force-field files, plus the
registered residue template generators, each a predicate telling which
residue types it can parameterize on demand. -/
structure ForceField (ρ : Type) where
  builtinTemplates : List ρ
  generators : List (ρ → Bool)

/-- The notebook's `ff.registerTemplateGenerator(smirnoff.generator)`:
appends the generator to the force field's registry of template generators. -/
def ForceField.registerTemplateGenerator {ρ : Type} (ff : ForceField ρ)
    (g : ρ → Bool) : ForceField ρ :=
  ⟨ff.builtinTemplates, ff.generators ++ [g]⟩

/-- Modelled from the spec: a residue resolves when a built-in template
matches it, or some registered template generator synthesizes matching
parameters for it on demand (lazily, per residue). -/
def ForceField.resolves {ρ : Type} [DecidableEq ρ] (ff : ForceField ρ)
    (r : ρ) : Bool :=
  decide (r ∈ ff.builtinTemplates) || ff.generators.any (fun g => g r)

/-- Modelled from the spec: `ff.createSystem(topology, ...)` succeeds exactly
when every residue of the topology resolves — via a built-in template or a
registered template generator — and fails otherwise. -/
def ForceField.createSystem {ρ : Type} [DecidableEq ρ] (ff : ForceField ρ)
    (topology : List ρ) : Option (List ρ) :=
  if topology.all ff.resolves then some topology else none

/-- Result of one invocation of the External Workflow Node: its exit status,
the output files it wrote to the working directory, and whether it printed
usage help. -/
structure NodeResult where
  exitCode : Nat
  outputFiles : List String
  printedUsage : Bool
deriving DecidableEq, Repr

/-- The four Amber-format files the External Workflow Node writes: the
bound-complex topology and coordinates and the free-ligand topology and
coordinates. -/
def bssOutputFiles : List String :=
  ["bound.prm7", "bound.rst7", "free.prm7", "free.rst7"]

/-- Modelled from the spec: `BSSPrepNode.py` is code of this repository that
is not present under `src/` (the notebook downloads it with `wget` before
invoking it).  Per the spec, invoked with valid `--ligand` and `--protein`
paths it writes exactly the four Amber-format output files `bound.prm7`,
`bound.rst7`, `free.prm7`, `free.rst7` and no others; invoked without
arguments it prints usage help and exits with a non-error status without
producing any file. -/
def bssPrepNode (ligandArg proteinArg : Option String) : NodeResult :=
  match ligandArg, proteinArg with
  | some _, some _ => ⟨0, bssOutputFiles, false⟩
  | _, _ => ⟨0, [], true⟩

end OpenMMWorkshop

namespace OpenMMWorkshop

/-- C1: on a context on which positions were never set (phase
`unpositioned`), both `minimizeEnergy` and `step` are usage errors; running
the Method 1 simulate cell as written (with the `setPositions` `FIXME`
unfilled) therefore fails, and its first operation — the `minimizeEnergy`
call preceding `step`, which already requires coordinates — is where the
failure occurs. -/
theorem method1_unpositioned_usage_error :
    simApply SimPhase.unpositioned SimOp.minimizeEnergy = none ∧
    (∀ n : Nat, simApply SimPhase.unpositioned (SimOp.step n) = none) ∧
    runOps SimPhase.unpositioned method1Ops = none ∧
    method1Ops.head? = some SimOp.minimizeEnergy :=
  ⟨rfl, fun _ => rfl, rfl, rfl⟩

/-- C8: the Method 2 cell drives the simulation through the phases
`unpositioned → positioned → minimized → velocityAssigned → running →
completed` in exactly this order, and this order is the only one: of all
permutations of the four Method 2 operations, only the order written in the
notebook runs to completion. -/
theorem method2_strict_phase_order :
    runTrace SimPhase.unpositioned method2Ops =
      some [SimPhase.positioned, SimPhase.minimized,
            SimPhase.velocityAssigned, SimPhase.running, SimPhase.completed] ∧
    method2Ops.permutations'.filter
      (fun l => (runOps SimPhase.unpositioned l).isSome) = [method2Ops] := by
  constructor
  · rfl
  · decide

theorem reportCount_eq_div (n k : Nat) : reportCount n k = n / k := by
  induction n with
  | zero => simp [reportCount]
  | succ m ih =>
      unfold reportCount at ih ⊢
      rw [List.range_succ, List.countP_append, ih, Nat.succ_div]
      simp only [List.countP_cons, List.countP_nil, Nat.zero_add]
      congr 1
      by_cases h : k ∣ m + 1
      · have hmod : (m + 1) % k = 0 := Nat.dvd_iff_mod_eq_zero.mp h
        simp [h, hmod]
      · have hmod : (m + 1) % k ≠ 0 := fun hc =>
          h (Nat.dvd_iff_mod_eq_zero.mpr hc)
        simp [h, hmod]

/-- C3: a run of the Simulation Driver for `n` steps with reporting interval
`k` emits exactly `n / k` (floor division) diagnostic lines, zero lines when
`n < k`; with the notebook's `simulation.step(1000)` and interval `100`,
exactly 10 lines are emitted — in both Method 1 and Method 2 cells. -/
theorem driver_report_line_count :
    (∀ n k : Nat, reportCount n k = n / k) ∧
    (∀ n k : Nat, n < k → reportCount n k = 0) ∧
    reportCount notebookStepCount notebookReportInterval = 10 := by
  refine ⟨fun n k => reportCount_eq_div n k, fun n k h => ?_, ?_⟩
  · rw [reportCount_eq_div]
    exact Nat.div_eq_of_lt h
  · rw [reportCount_eq_div]
    rfl

/-- Witness for C3: a concrete boundary run, 40 steps with interval 100,
emits zero diagnostic lines. -/
theorem driver_report_line_count_witness : reportCount 40 100 = 0 :=
  driver_report_line_count.2.1 40 100 (by decide)

/-- C10: the two pipelines do not emit identical diagnostic fields; Method 1
reports step index, potential energy, temperature and speed, Method 2 only
step index, potential energy and temperature — exactly the speed field is
missing, so each Method 1 line has one more field than each Method 2 line. -/
theorem reporter_fields_differ_by_speed :
    method1Fields = method2Fields ++ [DiagField.speed] ∧
    method1Fields.length = method2Fields.length + 1 ∧
    DiagField.speed ∈ method1Fields ∧
    DiagField.speed ∉ method2Fields := by
  refine ⟨rfl, rfl, by decide, by decide⟩

/-- C2: the Topology Combiner only appends atoms: after `modeller.add` and
`modeller.addSolvent` the output atom list is exactly the solute atoms
(protein then ligand, in their original relative order, none dropped,
duplicated or re-ordered) followed by the added solvent and ion atoms; hence
the output atom count is the solute atom count plus the number of added
solvent/ion atoms, and every atom value occurs exactly as often as in the
solute and the added solvent together. -/
theorem combiner_appends_atoms_only {α : Type} [DecidableEq α]
    (protein ligand solventIons : List α) :
    ((Modeller.mk protein).add ligand |>.addSolvent solventIons).atoms
        = (protein ++ ligand) ++ solventIons ∧
    ((Modeller.mk protein).add ligand |>.addSolvent solventIons).atoms.length
        = (protein.length + ligand.length) + solventIons.length ∧
    ∀ a : α,
      ((Modeller.mk protein).add ligand |>.addSolvent solventIons).atoms.count a
        = (protein ++ ligand).count a + solventIons.count a := by
  refine ⟨rfl, ?_, fun a => ?_⟩
  · simp [Modeller.add, Modeller.addSolvent]
    omega
  · simp [Modeller.add, Modeller.addSolvent, List.count_append]
    omega

/-- C9: Method 1 always hands the combiner the first conformer of the loaded
ligand (`ligand.conformers[0]`): with conformers `c :: rest` the positions
used are `c`, whatever `rest` holds (later conformers are ignored); with no
conformer the indexing fails before any topology is merged; the combine step
succeeds exactly when the molecule carries at least one conformer. -/
theorem method1_first_conformer_only {α π : Type} (modeller : Modeller α)
    (ligandAtoms : List α) (c : π) (rest : List π) :
    method1Combine modeller ligandAtoms ⟨c :: rest⟩
        = some (modeller.add ligandAtoms, c) ∧
    method1Combine modeller ligandAtoms (⟨[]⟩ : OffMolecule π) = none ∧
    ∀ lig : OffMolecule π,
      (method1Combine modeller ligandAtoms lig).isSome ↔ lig.conformers ≠ [] := by
  refine ⟨?_, ?_, fun lig => ?_⟩
  · simp [method1Combine, ligandPositions]
  · simp [method1Combine, ligandPositions]
  cases lig with
  | mk cs =>
      cases cs with
      | nil => simp [method1Combine, ligandPositions]
      | cons c0 cs0 => simp [method1Combine, ligandPositions]

/-- C7: when periodic solvation is requested with padding `p` around a solute
of nonnegative extents, every box dimension — in particular the minimum one —
is at least `2 * p`, the padding applying symmetrically on every side. -/
theorem addSolvent_box_min_dimension (extents : List ℚ) (p : ℚ)
    (hext : ∀ e ∈ extents, 0 ≤ e) :
    ∀ d ∈ boxDimensions extents p, 2 * p ≤ d := by
  intro d hd
  simp only [boxDimensions, List.mem_map] at hd
  obtain ⟨e, he, rfl⟩ := hd
  have h0 : (0 : ℚ) ≤ e := hext e he
  linarith

/-- Witness for C7: a solute of extents 3, 4, 5 nanometers, solvated with the
notebook's padding of 1 nanometer, gets a box whose first dimension is at
least 2 nanometers. -/
theorem addSolvent_box_min_dimension_witness :
    2 * notebookPadding ≤ (3 : ℚ) + 2 * notebookPadding :=
  addSolvent_box_min_dimension [3, 4, 5] notebookPadding
    (by norm_num) (3 + 2 * notebookPadding) (by simp [boxDimensions])

/-- C6: once the SMIRNOFF template generator is registered
(`ff.registerTemplateGenerator`), it sits in the force field's generator
registry, every residue of a topology covered by the built-in templates or by
the generator resolves (the generator queried lazily, per residue), and the
subsequent `ff.createSystem` call on such a topology — the combined
protein-ligand topology in the notebook — succeeds. -/
theorem registered_generator_createSystem_succeeds {ρ : Type} [DecidableEq ρ]
    (ff : ForceField ρ) (g : ρ → Bool) (topology : List ρ)
    (hcover : ∀ r ∈ topology, r ∈ ff.builtinTemplates ∨ g r = true) :
    (ff.registerTemplateGenerator g).generators = ff.generators ++ [g] ∧
    (∀ r ∈ topology, (ff.registerTemplateGenerator g).resolves r = true) ∧
    (ff.registerTemplateGenerator g).createSystem topology = some topology := by
  have hres : ∀ r ∈ topology, (ff.registerTemplateGenerator g).resolves r = true := by
    intro r hr
    rcases hcover r hr with h | h
    · simp [ForceField.resolves, ForceField.registerTemplateGenerator, h]
    · simp only [ForceField.resolves, ForceField.registerTemplateGenerator,
        Bool.or_eq_true, List.any_eq_true]
      exact Or.inr ⟨g, by simp, h⟩
  refine ⟨rfl, hres, ?_⟩
  unfold ForceField.createSystem
  rw [if_pos (List.all_eq_true.mpr hres)]

/-- Witness for C6: a force field whose built-in templates cover residue `0`
only, once the generator matching residue `5` is registered, builds a system
from the topology `[0, 5]`. -/
theorem registered_generator_createSystem_succeeds_witness :
    ForceField.createSystem
        (ForceField.registerTemplateGenerator
          (⟨[0], []⟩ : ForceField Nat) (fun r => r == 5)) [0, 5]
      = some [0, 5] :=
  (registered_generator_createSystem_succeeds
    (⟨[0], []⟩ : ForceField Nat) (fun r => r == 5) [0, 5] (by decide)).2.2

/-- C4: invoked with valid `--ligand` and `--protein` paths, the External
Workflow Node produces exactly the four distinct Amber-format output files
`bound.prm7`, `bound.rst7`, `free.prm7`, `free.rst7` and nothing else, with a
zero exit status and no usage message. -/
theorem bssPrepNode_valid_args_four_outputs (lig prot : String) :
    bssPrepNode (some lig) (some prot) = ⟨0, bssOutputFiles, false⟩ ∧
    (bssPrepNode (some lig) (some prot)).outputFiles
        = ["bound.prm7", "bound.rst7", "free.prm7", "free.rst7"] ∧
    (bssPrepNode (some lig) (some prot)).outputFiles.length = 4 ∧
    (bssPrepNode (some lig) (some prot)).outputFiles.Nodup := by
  refine ⟨rfl, rfl, rfl, ?_⟩
  show bssOutputFiles.Nodup
  decide

/-- C5: invoked with no arguments, the External Workflow Node prints usage
help, exits with status 0 without raising, and produces no output files. -/
theorem bssPrepNode_no_args_no_outputs :
    bssPrepNode none none = ⟨0, [], true⟩ ∧
    (bssPrepNode none none).outputFiles = [] ∧
    (bssPrepNode none none).exitCode = 0 ∧
    (bssPrepNode none none).printedUsage = true :=
  ⟨rfl, rfl, rfl, rfl⟩

end OpenMMWorkshop
